import Mathlib

/-!
Verification development for an inline API-traffic guard: an interception
gate consulting a mitigation store, a bounded traffic recorder, a batch
scheduler, a calibrator adjusting classifier verdicts against case memory,
and a feedback channel.  The backend service code is not part of the
repository snapshot (only its README, architecture docs and the React
frontend are), so the pipeline components are modelled from the
specification; the login client is embedded from the frontend source.
-/

set_option autoImplicit false

/-- Modelled from the spec: the ordered mitigation-level enum
{None, Delay, Captcha, TemporaryBlock, PermanentBan}. -/
inductive MitigationLevel where
  | none
  | delay
  | captcha
  | tempBlock
  | ban
deriving DecidableEq

/-- Rank of a mitigation level in the escalation order. -/
def MitigationLevel.toNat : MitigationLevel → Nat
  | .none => 0
  | .delay => 1
  | .captcha => 2
  | .tempBlock => 3
  | .ban => 4

/-- One level down the escalation order (floor at None). -/
def MitigationLevel.down : MitigationLevel → MitigationLevel
  | .none => .none
  | .delay => .none
  | .captcha => .delay
  | .tempBlock => .captcha
  | .ban => .tempBlock

/-- One level up the escalation order (capped at PermanentBan). -/
def MitigationLevel.up : MitigationLevel → MitigationLevel
  | .none => .delay
  | .delay => .captcha
  | .captcha => .tempBlock
  | .tempBlock => .ban
  | .ban => .ban

/-- The larger of two mitigation levels in the escalation order. -/
def maxLevel (a b : MitigationLevel) : MitigationLevel :=
  if a.toNat < b.toNat then b else a

/-- Modelled from the spec: an actor identity is a discriminated union of
IP address and account/user id. -/
inductive ActorIdentity where
  | ip (addr : String)
  | account (uid : String)
deriving DecidableEq

/-- Modelled from the spec: an active mitigation holds a level and an
expiry instant, `Option.none` meaning no expiry (permanent). -/
structure ActiveMitigation where
  level : MitigationLevel
  expiry : Option Nat
deriving DecidableEq

/-- An active mitigation is expired at `now` when it has an expiry instant
that `now` is strictly past. -/
def ActiveMitigation.isExpired (m : ActiveMitigation) (now : Nat) : Bool :=
  match m.expiry with
  | some e => decide (e < now)
  | none => false

/-- Modelled from the spec: MitigationStore state, a key/value store of
currently active mitigations keyed by actor identity. -/
def MitigationStore : Type := List (ActorIdentity × ActiveMitigation)

/-- The empty mitigation store. -/
def MitigationStore.empty : MitigationStore := []

/-- Raw lookup of the entry stored for an actor, ignoring expiry. -/
def MitigationStore.lookup : MitigationStore → ActorIdentity → Option ActiveMitigation
  | [], _ => Option.none
  | (b, m) :: rest, a =>
      if b = a then some m else MitigationStore.lookup rest a

/-- Modelled from the spec: `set` writes/overwrites the single entry for an
actor (atomic entry replacement, last-write-wins). -/
def MitigationStore.set (s : MitigationStore) (a : ActorIdentity)
    (m : ActiveMitigation) : MitigationStore :=
  (a, m) :: s.filter (fun p => !(decide (p.1 = a)))

/-- Modelled from the spec: `get` with passive expiry — a stored entry
whose expiry has passed is treated as absent on read, with no explicit
delete required. -/
def MitigationStore.get (s : MitigationStore) (now : Nat)
    (a : ActorIdentity) : Option ActiveMitigation :=
  match s.lookup a with
  | some m => if m.isExpired now then Option.none else some m
  | Option.none => Option.none

/-- Number of entries a store holds for one actor. -/
def MitigationStore.countKey (s : MitigationStore) (a : ActorIdentity) : Nat :=
  (s.filter (fun p => decide (p.1 = a))).length

/-- Replay a linearized sequence of writes against a store. -/
def MitigationStore.applyWrites (s : MitigationStore)
    (ws : List (ActorIdentity × ActiveMitigation)) : MitigationStore :=
  ws.foldl (fun st p => st.set p.1 p.2) s

/-- Modelled from the spec: errors a hot-path MitigationStore read can
surface (store unreachable, or an internal error). -/
inductive StoreError where
  | unreachable
  | internal (msg : String)

/-- Modelled from the spec: an immutable snapshot of one completed
request. -/
structure RequestRecord where
  timestamp : Nat
  method : String
  path : String
  actor : ActorIdentity
  status : Nat
  latency : Nat
  excerpt : String
deriving DecidableEq

/-- Modelled from the spec: TrafficRecorder state — a bounded queue of
request records and a counter of dropped records. -/
structure RecorderState where
  queue : List RequestRecord
  dropCount : Nat
deriving DecidableEq

/-- Modelled from the spec: `TrafficRecorder.record` appends to the bounded
queue; when the queue is full the oldest record is dropped and the drop
counter increments.  It is a total pure function: it always returns a new
state, never blocks and never throws. -/
def TrafficRecorder.record (cap : Nat) (s : RecorderState)
    (r : RequestRecord) : RecorderState :=
  if s.queue.length < cap then
    { queue := s.queue ++ [r], dropCount := s.dropCount }
  else
    { queue := s.queue.tail ++ [r], dropCount := s.dropCount + 1 }

/-- Modelled from the spec: the request as the interception gate sees it —
its actor identity and whether a valid captcha challenge token is
attached. -/
structure GateRequest where
  actor : ActorIdentity
  hasValidCaptcha : Bool
  method : String
  path : String
  timestamp : Nat

/-- Modelled from the spec: the downstream handler, abstracted as the
status/latency it would produce if invoked. -/
structure Downstream where
  status : Nat
  latency : Nat

/-- Modelled from the spec: the gate's response — proceed (possibly after a
jittered delay), a captcha challenge, or a rejection. -/
inductive GateResponse where
  | allowed (delayed : Bool) (status : Nat)
  | challenge
  | rejected
deriving DecidableEq

/-- Result of one gate invocation: the response, whether the downstream
handler was invoked, how many store read errors were counted, and the
request record queued for the pipeline (when the request proceeded). -/
structure GateResult where
  response : GateResponse
  downstreamCalled : Bool
  storeErrorCount : Nat
  recorded : Option RequestRecord

/-- Effective mitigation level of a store lookup result: a miss is level
None. -/
def effectiveLevelOf : Option ActiveMitigation → MitigationLevel
  | some m => m.level
  | Option.none => MitigationLevel.none

/-- Modelled from the spec: effective level of a fallible store read — a
read error is treated as no active mitigation (deliberate fail-open). -/
def effectiveLevel : Except StoreError (Option ActiveMitigation) → MitigationLevel
  | .error _ => MitigationLevel.none
  | .ok o => effectiveLevelOf o

/-- Record snapshot the gate hands to the traffic recorder after the
downstream handler returns. -/
def mkRecord (req : GateRequest) (d : Downstream) : RequestRecord :=
  { timestamp := req.timestamp, method := req.method, path := req.path,
    actor := req.actor, status := d.status, latency := d.latency,
    excerpt := "" }

/-- Modelled from the spec: `InterceptionGate.handle` over the result of
the mitigation-store read.  None proceeds; Delay proceeds after a delay;
Captcha short-circuits with a challenge unless a valid token is attached;
TemporaryBlock and PermanentBan short-circuit with a rejection and never
invoke the downstream handler; a store read error fails open and is
counted. -/
def InterceptionGate.handle (read : Except StoreError (Option ActiveMitigation))
    (req : GateRequest) (d : Downstream) : GateResult :=
  let errs : Nat := match read with
    | .error _ => 1
    | .ok _ => 0
  match effectiveLevel read with
  | .none =>
      { response := .allowed false d.status, downstreamCalled := true,
        storeErrorCount := errs, recorded := some (mkRecord req d) }
  | .delay =>
      { response := .allowed true d.status, downstreamCalled := true,
        storeErrorCount := errs, recorded := some (mkRecord req d) }
  | .captcha =>
      if req.hasValidCaptcha then
        { response := .allowed false d.status, downstreamCalled := true,
          storeErrorCount := errs, recorded := some (mkRecord req d) }
      else
        { response := .challenge, downstreamCalled := false,
          storeErrorCount := errs, recorded := Option.none }
  | .tempBlock =>
      { response := .rejected, downstreamCalled := false,
        storeErrorCount := errs, recorded := Option.none }
  | .ban =>
      { response := .rejected, downstreamCalled := false,
        storeErrorCount := errs, recorded := Option.none }

/-- Gate invocation against a live store at time `now` (successful read
path, expiry checked by the store's `get`). -/
def InterceptionGate.handleWith (s : MitigationStore) (now : Nat)
    (req : GateRequest) (d : Downstream) : GateResult :=
  InterceptionGate.handle (.ok (s.get now req.actor)) req d

/-- Modelled from the spec: BatchScheduler configuration — the queue size
threshold (e.g. 100) and the fixed tick interval (e.g. 5 seconds). -/
structure SchedulerConfig where
  sizeThreshold : Nat
  tickInterval : Nat

/-- Modelled from the spec: BatchScheduler state — the pending queue and
the time elapsed since the timer was last reset. -/
structure SchedulerState where
  queue : List RequestRecord
  elapsed : Nat
deriving DecidableEq

/-- Modelled from the spec: a record arrives in the scheduler queue; if the
queue thereby reaches the size threshold the entire queue is drained
immediately into a batch and the timer resets, without waiting for the
tick. -/
def BatchScheduler.onRecord (cfg : SchedulerConfig) (s : SchedulerState)
    (r : RequestRecord) : SchedulerState × Option (List RequestRecord) :=
  let q := s.queue ++ [r]
  if cfg.sizeThreshold ≤ q.length then
    ({ queue := [], elapsed := 0 }, some q)
  else
    ({ queue := q, elapsed := s.elapsed }, Option.none)

/-- Modelled from the spec: one unit of time passes; when the fixed tick
interval is reached the entire queue is drained atomically and the timer
resets — even with fewer than threshold records.  An empty queue at the
tick dispatches no batch (an empty batch is a no-op). -/
def BatchScheduler.onTimeStep (cfg : SchedulerConfig)
    (s : SchedulerState) : SchedulerState × Option (List RequestRecord) :=
  let t := s.elapsed + 1
  if cfg.tickInterval ≤ t then
    ({ queue := [], elapsed := 0 },
     if s.queue.isEmpty then Option.none else some s.queue)
  else
    ({ queue := s.queue, elapsed := t }, Option.none)

/-- Modelled from the spec: a persisted calibrated case — situation
fingerprint, rationale, category, severity, final level, timestamp, and an
optional human-feedback label (`some true` = correct, `some false` =
incorrect). -/
structure CalibratedCase where
  id : Nat
  rationale : String
  category : String
  severity : Nat
  finalLevel : MitigationLevel
  timestamp : Nat
  feedback : Option Bool
deriving DecidableEq

/-- Modelled from the spec: CaseMemory state, the similarity-indexed log of
past calibrated cases. -/
def CaseMemory : Type := List CalibratedCase

/-- Retrieved cases with feedback "incorrect" that share the suggested
level form a strict majority of the retrieved set. -/
def incorrectDominateAt (suggested : MitigationLevel)
    (retrieved : List CalibratedCase) : Bool :=
  decide (retrieved.length <
    2 * (retrieved.filter
      (fun c => decide (c.feedback = some false ∧ c.finalLevel = suggested))).length)

/-- Retrieved cases showing the pattern was previously under-escalated — a
strict majority carry feedback "incorrect" at a level below the suggested
one. -/
def previouslyUnderEscalated (suggested : MitigationLevel)
    (retrieved : List CalibratedCase) : Bool :=
  decide (retrieved.length <
    2 * (retrieved.filter
      (fun c => decide (c.feedback = some false ∧
        c.finalLevel.toNat < suggested.toNat))).length)

/-- Modelled from the spec: step (3) of the calibration policy — downgrade
one level when incorrect-feedback cases at the suggested level dominate,
escalate one level (capped at PermanentBan) when the pattern was
previously under-escalated and the same actor reappears across batches,
otherwise adopt the suggested level unchanged. -/
def calibrationPolicy (suggested : MitigationLevel)
    (retrieved : List CalibratedCase) (actorReappears : Bool) : MitigationLevel :=
  if incorrectDominateAt suggested retrieved then
    suggested.down
  else if previouslyUnderEscalated suggested retrieved && actorReappears then
    suggested.up
  else
    suggested

/-- Modelled from the spec: the committed final level — the calibration
policy's output, never downgraded below the actor's current effective
ActiveMitigation level within the same escalation episode unless explicit
positive feedback says so (step (4)). -/
def calibrateFinal (suggested : MitigationLevel)
    (retrieved : List CalibratedCase) (actorReappears : Bool)
    (current : MitigationLevel) (positiveFeedback : Bool) : MitigationLevel :=
  let p := calibrationPolicy suggested retrieved actorReappears
  if positiveFeedback then p else maxLevel p current

/-- Result of a feedback submission. -/
inductive FeedbackResult where
  | success
  | notFound
deriving DecidableEq

/-- Modelled from the spec: `submitFeedback(caseId, isCorrect)` attaches
the label to the matching calibrated case idempotently (last write wins);
an unknown case id reports NotFound and leaves the memory unchanged. -/
def submitFeedback (mem : CaseMemory) (caseId : Nat)
    (isCorrect : Bool) : CaseMemory × FeedbackResult :=
  if mem.any (fun c => c.id == caseId) then
    (mem.map (fun c =>
        if c.id == caseId then { c with feedback := some isCorrect } else c),
     .success)
  else
    (mem, .notFound)

/-- Whether `pat` occurs as a substring of `s` (via `String.splitOn`:
splitting on an occurring separator yields more than one part). -/
def containsSubstr (s pat : String) : Bool :=
  decide (1 < (s.splitOn pat).length)

/-- Outcome of the login fetch as `handleLogin` in the login page
distinguishes it: the server reported an error, reported success (with an
optional message), reported neither, or the request itself failed. -/
inductive LoginOutcome where
  | serverError (msg : String)
  | serverSuccess (msg : Option String)
  | serverNeither
  | networkFailure

/-- React state of the login page (`Login` component): form fields,
messages, loading flag, captcha visibility, the stored captcha token, and
whether the mounted reCAPTCHA widget currently holds a response
(`recaptchaRef.current.reset()` clears it). -/
structure LoginPageState where
  username : String
  password : String
  errorMessage : String
  successMessage : String
  isLoading : Bool
  showCaptcha : Bool
  captchaToken : Option String
  widgetHasResponse : Bool
deriving DecidableEq

/-- Body of the login POST: username, password, and `captcha_token` only
when a token is stored (`if (captchaToken) requestBody.captcha_token =
captchaToken`). -/
structure LoginRequestBody where
  username : String
  password : String
  captcha_token : Option String
deriving DecidableEq

/-- Request body `handleLogin` builds from the current page state. -/
def buildRequestBody (s : LoginPageState) : LoginRequestBody :=
  { username := s.username, password := s.password,
    captcha_token := s.captchaToken }

/-- The error strings that make the login page show the captcha widget:
the lowercased server error contains "captcha required" or "captcha
verification failed". -/
def errorRequiresCaptcha (msg : String) : Bool :=
  containsSubstr msg.toLower "captcha required" ||
  containsSubstr msg.toLower "captcha verification failed"

/-- Embedding of `handleLogin` from the login page: builds the request
body from the current state, updates messages per the fetch outcome, and
in the `finally` block always resets the captcha token to null, resets the
reCAPTCHA widget, and clears the loading flag.  Returns the request body
that was sent and the post-attempt state. -/
def handleLogin (s : LoginPageState) (outcome : LoginOutcome) :
    LoginRequestBody × LoginPageState :=
  let body := buildRequestBody s
  let s1 := { s with isLoading := true }
  let s2 := match outcome with
    | .serverError msg =>
        let se := { s1 with errorMessage := msg, successMessage := "" }
        if errorRequiresCaptcha msg then { se with showCaptcha := true } else se
    | .serverSuccess msg =>
        { s1 with successMessage := msg.getD "Login successful!",
                  password := "", errorMessage := "", showCaptcha := false }
    | .serverNeither => s1
    | .networkFailure =>
        { s1 with
            errorMessage := "Failed to connect to the server. Please try again.",
            successMessage := "" }
  (body,
   { s2 with captchaToken := Option.none, widgetHasResponse := false,
             isLoading := false })

/-- Three retrieved auth cases marked feedback=incorrect at level
TemporaryBlock — the concrete scenario of the spec's calibration
downgrade rule. -/
def exIncorrectCases : List CalibratedCase :=
  [CalibratedCase.mk 1 "burst of failed logins from one IP" "auth" 3
     MitigationLevel.tempBlock 100 (some false),
   CalibratedCase.mk 2 "burst of failed logins from one IP" "auth" 3
     MitigationLevel.tempBlock 160 (some false),
   CalibratedCase.mk 3 "failed login burst, single source" "auth" 3
     MitigationLevel.tempBlock 220 (some false)]

/-- A fixed concrete request record used by witnesses. -/
def exReqRecord : RequestRecord :=
  RequestRecord.mk 50 "POST" "/login" (ActorIdentity.ip "10.0.0.5") 401 12 ""

/-! Helper lemmas shared by the claim theorems. -/

theorem lookup_set_self (s : MitigationStore) (a : ActorIdentity)
    (m : ActiveMitigation) : (s.set a m).lookup a = some m := by
  simp [MitigationStore.set, MitigationStore.lookup]

theorem length_filter_filter_le {α : Type} (p q : α → Bool) (l : List α) :
    ((l.filter q).filter p).length ≤ (l.filter p).length := by
  induction l with
  | nil => simp
  | cons x xs ih =>
      by_cases hq : q x <;> by_cases hp : p x <;>
        simp [List.filter_cons, hq, hp, -List.filter_filter] <;> omega

theorem countKey_set_self (s : MitigationStore) (a : ActorIdentity)
    (m : ActiveMitigation) : (s.set a m).countKey a = 1 := by
  simp [MitigationStore.set, MitigationStore.countKey, List.filter_cons,
    List.filter_filter]

theorem countKey_set_other (s : MitigationStore) (a b : ActorIdentity)
    (m : ActiveMitigation) (h : a ≠ b) :
    (s.set b m).countKey a ≤ s.countKey a := by
  have hba : ¬ (b = a) := fun he => h he.symm
  simp only [MitigationStore.set, MitigationStore.countKey, List.filter_cons,
    hba, decide_False, Bool.false_eq_true, if_false]
  exact length_filter_filter_le _ _ s

theorem applyWrites_cons (s : MitigationStore)
    (w : ActorIdentity × ActiveMitigation)
    (ws : List (ActorIdentity × ActiveMitigation)) :
    MitigationStore.applyWrites s (w :: ws) =
      MitigationStore.applyWrites (s.set w.1 w.2) ws := rfl

theorem countKey_applyWrites_le (ws : List (ActorIdentity × ActiveMitigation)) :
    ∀ (s : MitigationStore), (∀ a, s.countKey a ≤ 1) →
      ∀ a, (s.applyWrites ws).countKey a ≤ 1 := by
  induction ws with
  | nil => intro s h a; exact h a
  | cons w ws ih =>
      intro s h a
      rw [applyWrites_cons]
      refine ih (s.set w.1 w.2) (fun a2 => ?_) a
      by_cases hw : a2 = w.1
      · rw [hw]; exact le_of_eq (countKey_set_self s w.1 w.2)
      · exact le_trans (countKey_set_other s a2 w.1 w.2 hw) (h a2)

/-- Claim C2: for every actor identity, at most one ActiveMitigation entry
exists in any store reachable by a (linearized) sequence of writes from
the empty store, and a write for an actor replaces any prior entry
(last-write-wins) rather than duplicating it. -/
theorem mitigation_store_single_entry_lww :
    (∀ (ws : List (ActorIdentity × ActiveMitigation)) (a : ActorIdentity),
        (MitigationStore.applyWrites MitigationStore.empty ws).countKey a ≤ 1) ∧
    (∀ (s : MitigationStore) (a : ActorIdentity) (m : ActiveMitigation),
        (s.set a m).lookup a = some m) := by
  constructor
  · intro ws a
    refine countKey_applyWrites_le ws MitigationStore.empty (fun a2 => ?_) a
    simp [MitigationStore.empty, MitigationStore.countKey]
  · exact lookup_set_self

/-- Claim C3: a stored ActiveMitigation whose expiry instant is `e` is
absent from any `MitigationStore.get` performed strictly after `e` (the
gate sees effective level None), with no explicit delete beforehand. -/
theorem store_get_after_expiry (s : MitigationStore) (a : ActorIdentity)
    (m : ActiveMitigation) (e now : Nat)
    (hfound : s.lookup a = some m)
    (hexp : m.expiry = some e)
    (hnow : e < now) :
    s.get now a = Option.none ∧
    effectiveLevelOf (s.get now a) = MitigationLevel.none := by
  have hdead : m.isExpired now = true := by
    simp [ActiveMitigation.isExpired, hexp, hnow]
  simp [MitigationStore.get, hfound, hdead, effectiveLevelOf]

/-- Witness for claim C3 at a concrete store: an entry for IP 10.0.0.5
expiring at instant 100, read at instant 101, is absent. -/
theorem store_get_after_expiry_witness :
    MitigationStore.get
        [(ActorIdentity.ip "10.0.0.5",
          ActiveMitigation.mk MitigationLevel.tempBlock (some 100))] 101
        (ActorIdentity.ip "10.0.0.5") = Option.none ∧
    effectiveLevelOf
        (MitigationStore.get
          [(ActorIdentity.ip "10.0.0.5",
            ActiveMitigation.mk MitigationLevel.tempBlock (some 100))] 101
          (ActorIdentity.ip "10.0.0.5")) = MitigationLevel.none :=
  store_get_after_expiry _ _ (ActiveMitigation.mk MitigationLevel.tempBlock (some 100))
    100 101 (by decide) rfl (by decide)

theorem feedbackUpdate_idem (caseId : Nat) (b : Bool) (c : CalibratedCase) :
    (if (if c.id == caseId then { c with feedback := some b } else c).id == caseId
       then { (if c.id == caseId then { c with feedback := some b } else c) with
                feedback := some b }
       else (if c.id == caseId then { c with feedback := some b } else c)) =
      (if c.id == caseId then { c with feedback := some b } else c) := by
  by_cases h : c.id == caseId <;> simp [h]

/-- Claim C9: submitting the identical feedback twice for the same case id
leaves CaseMemory in exactly the same state as submitting it once. -/
theorem submitFeedback_idempotent (mem : CaseMemory) (caseId : Nat) (b : Bool) :
    submitFeedback (submitFeedback mem caseId b).1 caseId b =
      submitFeedback mem caseId b := by
  by_cases h : mem.any (fun c => c.id == caseId)
  · have hmap : (mem.map (fun c =>
        if c.id == caseId then { c with feedback := some b } else c)).any
          (fun c => c.id == caseId) = true := by
      rw [List.any_map]
      have hcomp : ((fun c : CalibratedCase => c.id == caseId) ∘
          (fun c => if c.id == caseId then { c with feedback := some b } else c)) =
            (fun c : CalibratedCase => c.id == caseId) := by
        funext c
        by_cases hc : c.id == caseId <;> simp [hc, Function.comp]
      rw [hcomp]
      exact h
    simp only [submitFeedback, h, if_true, hmap]
    refine Prod.ext ?_ rfl
    simp only [List.map_map]
    exact List.map_congr_left (fun c _ => feedbackUpdate_idem caseId b c)
  · simp only [submitFeedback, h, if_false]
    simp [submitFeedback, h]

/-- Claim C10: after every login attempt completes — server error, server
success, neither, or network failure — the stored captcha token is null
and the reCAPTCHA widget is reset, so a request body built from the
post-attempt state attaches no captcha token (a token is attached to at
most one login request). -/
theorem login_resets_captcha_token (s : LoginPageState) (o : LoginOutcome) :
    (handleLogin s o).2.captchaToken = Option.none ∧
    (handleLogin s o).2.widgetHasResponse = false ∧
    (buildRequestBody (handleLogin s o).2).captcha_token = Option.none := by
  cases o <;> exact ⟨rfl, rfl, rfl⟩

/-- Claim C1: a request whose actor has a stored, unexpired
ActiveMitigation at level TemporaryBlock or PermanentBan is rejected by
the interception gate without invoking the downstream handler (and
nothing is recorded for it). -/
theorem gate_short_circuits_active_block (s : MitigationStore) (now : Nat)
    (req : GateRequest) (d : Downstream) (m : ActiveMitigation)
    (hfound : s.lookup req.actor = some m)
    (hunexp : m.isExpired now = false)
    (hlvl : m.level = MitigationLevel.tempBlock ∨ m.level = MitigationLevel.ban) :
    (InterceptionGate.handleWith s now req d).response = GateResponse.rejected ∧
    (InterceptionGate.handleWith s now req d).downstreamCalled = false ∧
    (InterceptionGate.handleWith s now req d).recorded = Option.none := by
  have hget : s.get now req.actor = some m := by
    simp [MitigationStore.get, hfound, hunexp]
  rcases hlvl with h | h <;>
    simp [InterceptionGate.handleWith, InterceptionGate.handle, hget,
      effectiveLevel, effectiveLevelOf, h]

/-- Witness for claim C1: IP 10.0.0.5 under a TemporaryBlock expiring at
instant 100, hit at instant 50, is rejected with no downstream call. -/
theorem gate_short_circuits_active_block_witness :
    (InterceptionGate.handleWith
        [(ActorIdentity.ip "10.0.0.5",
          ActiveMitigation.mk MitigationLevel.tempBlock (some 100))] 50
        (GateRequest.mk (ActorIdentity.ip "10.0.0.5") false "GET" "/login" 50)
        (Downstream.mk 200 12)).response = GateResponse.rejected ∧
    (InterceptionGate.handleWith
        [(ActorIdentity.ip "10.0.0.5",
          ActiveMitigation.mk MitigationLevel.tempBlock (some 100))] 50
        (GateRequest.mk (ActorIdentity.ip "10.0.0.5") false "GET" "/login" 50)
        (Downstream.mk 200 12)).downstreamCalled = false ∧
    (InterceptionGate.handleWith
        [(ActorIdentity.ip "10.0.0.5",
          ActiveMitigation.mk MitigationLevel.tempBlock (some 100))] 50
        (GateRequest.mk (ActorIdentity.ip "10.0.0.5") false "GET" "/login" 50)
        (Downstream.mk 200 12)).recorded = Option.none :=
  gate_short_circuits_active_block _ 50 _ _
    (ActiveMitigation.mk MitigationLevel.tempBlock (some 100))
    (by decide) (by decide) (Or.inl rfl)

/-- Claim C6: when the hot-path MitigationStore read fails, the gate fails
open — the response and recorded traffic are exactly as if no active
mitigation existed, the request proceeds downstream, and the error is
counted rather than surfaced. -/
theorem gate_fails_open_on_store_error (e : StoreError) (req : GateRequest)
    (d : Downstream) :
    (InterceptionGate.handle (Except.error e) req d).response =
      (InterceptionGate.handle (Except.ok Option.none) req d).response ∧
    (InterceptionGate.handle (Except.error e) req d).downstreamCalled = true ∧
    (InterceptionGate.handle (Except.error e) req d).response =
      GateResponse.allowed false d.status ∧
    (InterceptionGate.handle (Except.error e) req d).storeErrorCount = 1 ∧
    (InterceptionGate.handle (Except.ok Option.none) req d).storeErrorCount = 0 ∧
    (InterceptionGate.handle (Except.error e) req d).recorded =
      (InterceptionGate.handle (Except.ok Option.none) req d).recorded := by
  simp [InterceptionGate.handle, effectiveLevel, effectiveLevelOf]

theorem current_le_calibrateFinal (suggested : MitigationLevel)
    (retrieved : List CalibratedCase) (actorReappears : Bool)
    (current : MitigationLevel) :
    current.toNat ≤
      (calibrateFinal suggested retrieved actorReappears current false).toNat := by
  unfold calibrateFinal maxLevel
  simp only [Bool.false_eq_true, if_false]
  split <;> omega

/-- Claim C4: across two consecutive Calibrator decisions for one actor —
the first committing level `L1` to the store with some TTL, the second
running while that mitigation is unexpired and without explicit positive
feedback — the later committed level is greater than or equal to `L1`. -/
theorem calibration_monotone_within_episode (store : MitigationStore)
    (a : ActorIdentity) (s1 s2 : MitigationLevel)
    (r1 r2 : List CalibratedCase) (ar1 ar2 : Bool) (now1 now2 : Nat)
    (ttl : Option Nat) (L1 : MitigationLevel)
    (_hL1 : L1 = calibrateFinal s1 r1 ar1
        (effectiveLevelOf (store.get now1 a)) false)
    (hunexp : (ActiveMitigation.mk L1 ttl).isExpired now2 = false) :
    L1.toNat ≤
      (calibrateFinal s2 r2 ar2
        (effectiveLevelOf ((store.set a (ActiveMitigation.mk L1 ttl)).get now2 a))
        false).toNat := by
  have hget : (store.set a (ActiveMitigation.mk L1 ttl)).get now2 a =
      some (ActiveMitigation.mk L1 ttl) := by
    simp [MitigationStore.get, lookup_set_self, hunexp]
  rw [hget]
  exact current_le_calibrateFinal s2 r2 ar2 L1

/-- Witness for claim C4: the empty store, a first decision committing
TemporaryBlock for one hour, and a second decision an instant later whose
suggestion is only Delay — the committed level stays at TemporaryBlock. -/
theorem calibration_monotone_within_episode_witness :
    MitigationLevel.tempBlock =
      calibrateFinal MitigationLevel.tempBlock [] false
        (effectiveLevelOf (MitigationStore.get MitigationStore.empty 10
          (ActorIdentity.ip "10.0.0.5"))) false ∧
    (ActiveMitigation.mk MitigationLevel.tempBlock (some 3610)).isExpired 20 = false ∧
    MitigationLevel.tempBlock.toNat ≤
      (calibrateFinal MitigationLevel.delay [] true
        (effectiveLevelOf
          ((MitigationStore.set MitigationStore.empty (ActorIdentity.ip "10.0.0.5")
            (ActiveMitigation.mk MitigationLevel.tempBlock (some 3610))).get 20
            (ActorIdentity.ip "10.0.0.5")))
        false).toNat :=
  ⟨by decide, by decide,
   calibration_monotone_within_episode MitigationStore.empty
     (ActorIdentity.ip "10.0.0.5") MitigationLevel.tempBlock MitigationLevel.delay
     [] [] false true 10 20 (some 3610) MitigationLevel.tempBlock
     (by decide) (by decide)⟩

/-- Counterexample to claim C5 as stated: with retrieved
incorrect-feedback cases dominating at the suggested level TemporaryBlock
(so the claim demands a downgrade to Captcha), an actor whose current
unexpired ActiveMitigation is already TemporaryBlock gets a final
committed level of TemporaryBlock, not Captcha — the final level is not a
function of the verdict and retrieved cases alone. -/
theorem calibrateFinal_not_policy_of_verdict_and_cases :
    incorrectDominateAt MitigationLevel.tempBlock exIncorrectCases = true ∧
    calibrationPolicy MitigationLevel.tempBlock exIncorrectCases false =
      MitigationLevel.captcha ∧
    calibrateFinal MitigationLevel.tempBlock exIncorrectCases false
        MitigationLevel.tempBlock false = MitigationLevel.tempBlock ∧
    MitigationLevel.tempBlock ≠ MitigationLevel.captcha := by
  refine ⟨by decide, by decide, by decide, by decide⟩

/-- Claim C5 (amended): the calibration policy maps the suggested level
one level down when incorrect-feedback cases sharing it dominate, one
level up (capped at PermanentBan) when the pattern was previously
under-escalated and the actor reappears, and keeps it otherwise; the
committed final level is that policy output clamped up to the actor's
current effective ActiveMitigation level when no explicit positive
feedback is present. -/
theorem calibrateFinal_branches (suggested : MitigationLevel)
    (retrieved : List CalibratedCase) (actorReappears : Bool)
    (current : MitigationLevel) :
    (incorrectDominateAt suggested retrieved = true →
      calibrateFinal suggested retrieved actorReappears current false =
        maxLevel suggested.down current) ∧
    (incorrectDominateAt suggested retrieved = false →
      previouslyUnderEscalated suggested retrieved = true →
      actorReappears = true →
      calibrateFinal suggested retrieved actorReappears current false =
        maxLevel suggested.up current) ∧
    (incorrectDominateAt suggested retrieved = false →
      (previouslyUnderEscalated suggested retrieved = false ∨
        actorReappears = false) →
      calibrateFinal suggested retrieved actorReappears current false =
        maxLevel suggested current) := by
  refine ⟨fun hdom => ?_, fun hdom hund har => ?_, fun hdom hrest => ?_⟩
  · simp [calibrateFinal, calibrationPolicy, hdom]
  · simp [calibrateFinal, calibrationPolicy, hdom, hund, har]
  · rcases hrest with h | h <;>
      simp [calibrateFinal, calibrationPolicy, hdom, h]

/-- Witness for the amended claim C5: each branch at concrete inputs —
dominant incorrect feedback downgrades, an under-escalated reappearing
pattern escalates, and an unremarkable retrieval keeps the suggestion. -/
theorem calibrateFinal_branches_witness :
    calibrateFinal MitigationLevel.tempBlock exIncorrectCases false
        MitigationLevel.none false =
      maxLevel MitigationLevel.tempBlock.down MitigationLevel.none ∧
    calibrateFinal MitigationLevel.ban exIncorrectCases true
        MitigationLevel.none false =
      maxLevel MitigationLevel.ban.up MitigationLevel.none ∧
    calibrateFinal MitigationLevel.delay [] false MitigationLevel.none false =
      maxLevel MitigationLevel.delay MitigationLevel.none :=
  ⟨(calibrateFinal_branches MitigationLevel.tempBlock exIncorrectCases false
      MitigationLevel.none).1 (by decide),
   (calibrateFinal_branches MitigationLevel.ban exIncorrectCases true
      MitigationLevel.none).2.1 (by decide) (by decide) rfl,
   (calibrateFinal_branches MitigationLevel.delay [] false
      MitigationLevel.none).2.2 (by decide) (Or.inl (by decide))⟩

/-- Claim C7: the scheduler drains on whichever condition fires first — an
arrival that reaches the size threshold drains the whole queue immediately
and resets the timer; below the threshold arrivals only enqueue; a tick
reached with a non-empty queue drains it entirely even below the
threshold; a tick with an empty queue dispatches no batch (empty batch is
a no-op); before the tick, time only advances. -/
theorem scheduler_dual_trigger (cfg : SchedulerConfig) (s : SchedulerState)
    (r : RequestRecord) :
    (cfg.sizeThreshold ≤ s.queue.length + 1 →
      BatchScheduler.onRecord cfg s r =
        (SchedulerState.mk [] 0, some (s.queue ++ [r]))) ∧
    (s.queue.length + 1 < cfg.sizeThreshold →
      BatchScheduler.onRecord cfg s r =
        (SchedulerState.mk (s.queue ++ [r]) s.elapsed, Option.none)) ∧
    (cfg.tickInterval ≤ s.elapsed + 1 → s.queue ≠ [] →
      BatchScheduler.onTimeStep cfg s =
        (SchedulerState.mk [] 0, some s.queue)) ∧
    (cfg.tickInterval ≤ s.elapsed + 1 → s.queue = [] →
      BatchScheduler.onTimeStep cfg s =
        (SchedulerState.mk [] 0, Option.none)) ∧
    (s.elapsed + 1 < cfg.tickInterval →
      BatchScheduler.onTimeStep cfg s =
        (SchedulerState.mk s.queue (s.elapsed + 1), Option.none)) := by
  refine ⟨fun hsz => ?_, fun hsz => ?_, fun ht hq => ?_, fun ht hq => ?_,
    fun ht => ?_⟩
  · simp [BatchScheduler.onRecord, hsz]
  · simp [BatchScheduler.onRecord, Nat.not_le.mpr hsz]
  · simp [BatchScheduler.onTimeStep, ht, hq]
  · simp [BatchScheduler.onTimeStep, ht, hq]
  · simp [BatchScheduler.onTimeStep, Nat.not_le.mpr ht]

/-- Witness for claim C7 with threshold 100 and tick 5: the 100th arrival
drains at once; a 99th arrival does not; a tick at a queue of two drains
both; a tick on an empty queue dispatches nothing; an early time step only
advances the timer. -/
theorem scheduler_dual_trigger_witness :
    BatchScheduler.onRecord (SchedulerConfig.mk 100 5)
        (SchedulerState.mk (List.replicate 99 exReqRecord) 2) exReqRecord =
      (SchedulerState.mk [] 0, some (List.replicate 99 exReqRecord ++ [exReqRecord])) ∧
    BatchScheduler.onRecord (SchedulerConfig.mk 100 5)
        (SchedulerState.mk (List.replicate 98 exReqRecord) 2) exReqRecord =
      (SchedulerState.mk (List.replicate 98 exReqRecord ++ [exReqRecord]) 2,
        Option.none) ∧
    BatchScheduler.onTimeStep (SchedulerConfig.mk 100 5)
        (SchedulerState.mk [exReqRecord, exReqRecord] 4) =
      (SchedulerState.mk [] 0, some [exReqRecord, exReqRecord]) ∧
    BatchScheduler.onTimeStep (SchedulerConfig.mk 100 5)
        (SchedulerState.mk [] 4) =
      (SchedulerState.mk [] 0, Option.none) ∧
    BatchScheduler.onTimeStep (SchedulerConfig.mk 100 5)
        (SchedulerState.mk [exReqRecord] 1) =
      (SchedulerState.mk [exReqRecord] 2, Option.none) :=
  ⟨(scheduler_dual_trigger (SchedulerConfig.mk 100 5)
      (SchedulerState.mk (List.replicate 99 exReqRecord) 2) exReqRecord).1
      (by simp),
   (scheduler_dual_trigger (SchedulerConfig.mk 100 5)
      (SchedulerState.mk (List.replicate 98 exReqRecord) 2) exReqRecord).2.1
      (by simp),
   (scheduler_dual_trigger (SchedulerConfig.mk 100 5)
      (SchedulerState.mk [exReqRecord, exReqRecord] 4) exReqRecord).2.2.1
      (by decide) (by simp),
   (scheduler_dual_trigger (SchedulerConfig.mk 100 5)
      (SchedulerState.mk [] 4) exReqRecord).2.2.2.1 (by decide) rfl,
   (scheduler_dual_trigger (SchedulerConfig.mk 100 5)
      (SchedulerState.mk [exReqRecord] 1) exReqRecord).2.2.2.2 (by decide)⟩

/-- Claim C8: `TrafficRecorder.record` is a total pure function (it always
returns a new state: it cannot block its caller or raise), the drop
counter never decreases, and on overflow — a full queue — the oldest
queued record is dropped, the new record still enters, and the drop
counter strictly increases; a queue within its bound stays within it. -/
theorem recorder_never_blocks_drops_oldest (cap : Nat) (s : RecorderState)
    (r : RequestRecord) :
    (s.dropCount ≤ (TrafficRecorder.record cap s r).dropCount) ∧
    (cap ≤ s.queue.length →
      (TrafficRecorder.record cap s r).dropCount = s.dropCount + 1 ∧
      (TrafficRecorder.record cap s r).queue = s.queue.tail ++ [r]) ∧
    (s.queue.length ≤ cap →
      (TrafficRecorder.record cap s r).queue.length ≤ max cap 1) := by
  refine ⟨?_, fun hfull => ?_, fun hbound => ?_⟩
  · unfold TrafficRecorder.record
    split <;> simp
  · have hnot : ¬ s.queue.length < cap := Nat.not_lt.mpr hfull
    constructor <;> simp [TrafficRecorder.record, hnot]
  · unfold TrafficRecorder.record
    split
    · simp; omega
    · simp [List.length_tail]; omega

/-- Witness for claim C8 at capacity 2 with a full queue: the oldest
record is dropped, the drop counter goes from 0 to 1, and the queue stays
at its bound. -/
theorem recorder_never_blocks_drops_oldest_witness :
    0 ≤ (TrafficRecorder.record 2
        (RecorderState.mk [exReqRecord, exReqRecord] 0) exReqRecord).dropCount ∧
    ((TrafficRecorder.record 2
        (RecorderState.mk [exReqRecord, exReqRecord] 0) exReqRecord).dropCount =
      1 ∧
     (TrafficRecorder.record 2
        (RecorderState.mk [exReqRecord, exReqRecord] 0) exReqRecord).queue =
      [exReqRecord, exReqRecord].tail ++ [exReqRecord]) ∧
    (TrafficRecorder.record 2
        (RecorderState.mk [exReqRecord, exReqRecord] 0) exReqRecord).queue.length ≤
      max 2 1 :=
  ⟨(recorder_never_blocks_drops_oldest 2
      (RecorderState.mk [exReqRecord, exReqRecord] 0) exReqRecord).1,
   (recorder_never_blocks_drops_oldest 2
      (RecorderState.mk [exReqRecord, exReqRecord] 0) exReqRecord).2.1
      (by decide),
   (recorder_never_blocks_drops_oldest 2
      (RecorderState.mk [exReqRecord, exReqRecord] 0) exReqRecord).2.2
      (by decide)⟩
